import Mathlib

/-!
Verification of the dealer classification and scoring pipeline of
`search_independent_dealers` (src/app.py, lines 540-970).

The per-candidate part of the pipeline (lines 704-950) is embedded as
`processPlace`: it consumes one raw place record (the fields requested from
the places API at lines 707-712), together with the search's reference point
and ZIP-code string, and either drops the candidate or produces the scored
dealer record built at lines 935-948.  The final ranking step (line 957)
is embedded in `classifyAndScore`.

Modelling conventions:
* Python dict `get` with a missing key is modelled with `Option`; `get(k, d)`
  is `Option.getD`.
* Python float ratings and coordinates are modelled as rationals; the decimal
  thresholds 4.5 and 3.5 are written `mkRat 9 2` and `mkRat 7 2`.  All
  comparisons the code performs are against values that are exact in both
  binary floating point and ℚ, so the order relations agree.
* `geopy.distance.geodesic(...).miles` (line 518) is an opaque numeric
  function of the two coordinate pairs; it is abstracted as an explicit
  function argument `dist` of the pipeline.  Python `round(x, 1)` is modelled
  by `round1` (round half up; the half-even tie case is immaterial to every
  property proved here).
* Python string lowercasing, stripping and substring tests are modelled over
  `List Char`; the names occurring in the word tables are ASCII, where
  `Char.toLower` agrees with `str.lower`.
* `list.sort(key=lambda x: (-score, distance))` sorts by the total preorder
  `prospectR`; it is modelled with `List.insertionSort prospectR`, which is
  sorted with respect to the same preorder.
-/

namespace IndependentDealerProspector

/-! ### String primitives (Python `in`, `startswith`, `endswith`, `strip`, `lower`) -/

/-- `needle` is a prefix of `hay` (as character lists). -/
def listPre : List Char → List Char → Bool
  | [], _ => true
  | _ :: _, [] => false
  | a :: as, b :: bs => a == b && listPre as bs

/-- `needle` occurs as a contiguous sublist of `hay`: Python `needle in hay`. -/
def listSub (needle : List Char) : List Char → Bool
  | [] => listPre needle []
  | c :: rest => listPre needle (c :: rest) || listSub needle rest

/-- Python `needle in hay` on strings. -/
def substrB (needle hay : String) : Bool := listSub needle.data hay.data

/-- Python `hay.startswith(p)`. -/
def startsB (p hay : String) : Bool := listPre p.data hay.data

/-- Python `hay.endswith(p)`. -/
def endsB (p hay : String) : Bool := listPre p.data.reverse hay.data.reverse

/-- ASCII whitespace recognised by Python `str.strip`. -/
def isSpaceCh (c : Char) : Bool :=
  c == ' ' || c == '\t' || c == '\n' || c == '\x0d' || c == '\x0b' || c == '\x0c'

/-- Python `s.strip()`: drop leading and trailing whitespace. -/
def stripStr (s : String) : String :=
  ⟨((s.data.dropWhile isSpaceCh).reverse.dropWhile isSpaceCh).reverse⟩

/-- Python `s.lower()` for ASCII text (`Char.toLower` lowercases exactly the
ASCII uppercase letters). -/
def lowerStr (s : String) : String := ⟨s.data.map Char.toLower⟩

/-- Python truthiness of an optional string (`None` and `""` are falsy). -/
def truthyStr : Option String → Bool
  | none => false
  | some s => !(s == "")

/-! ### Word tables (src/app.py lines 682-702, 746-751, 775-779, 790-799,
     827-867, 873-880, 930) -/

/-- Franchise brand list, lines 682-696. -/
def franchise_brands : List String :=
  ["toyota", "honda", "ford", "chevrolet", "chevy", "nissan", "mazda",
   "hyundai", "kia", "subaru", "volkswagen", "vw", "bmw", "mercedes-benz",
   "mercedes", "audi", "lexus", "infiniti", "acura", "cadillac", "lincoln",
   "buick", "gmc", "chrysler", "dodge", "jeep", "ram", "fiat", "mitsubishi",
   "volvo", "jaguar", "land rover", "porsche", "mini", "tesla", "genesis",
   "alfa romeo", "maserati", "bentley", "rolls-royce", "ferrari", "lamborghini",
   "peugeot", "citroen", "renault", "seat", "skoda", "smart", "saab", "hummer",
   "saturn", "pontiac", "oldsmobile", "plymouth", "mercury", "scion", "isuzu",
   "suzuki", "daewoo", "maybach", "mclaren", "aston martin", "lotus",
   "freightliner", "peterbilt", "kenworth", "mack", "international",
   "volvo trucks", "western star", "sterling", "autocar", "hino",
   "isuzu commercial"]

/-- Clear franchise indicator phrases, lines 746-751. -/
def franchise_clear_indicators : List String :=
  ["dealership", "new & used", "new and used", "certified pre-owned",
   "sales & service", "sales and service", "service center",
   "collision center", "parts & service", "motor company",
   "auto group", "family of dealerships", "auto mall"]

/-- Brand-free franchise-only patterns, lines 775-779. -/
def franchise_only_patterns : List String :=
  ["authorized dealer", "certified dealer", "official dealer",
   "factory authorized", "manufacturer certified",
   "oem parts", "genuine parts", "warranty service"]

/-- Non-dealer skip keywords, lines 790-799. -/
def skip_keywords : List String :=
  ["rent-a-car", "enterprise rent", "hertz rent", "avis rent", "budget rent",
   "parts only", "junkyard", "salvage yard", "towing service", "wrecker service",
   "car wash only", "detail only", "repair only", "mechanic only",
   "glass only", "windshield only", "tire shop", "oil change only",
   "insurance agency", "financing only", "aftermarket only",
   "motorcycle only", "truck rental only", "van rental only",
   "parking lot", "storage facility", "gas station", "fuel station",
   "driving school", "dmv office", "dmv service", "notary service"]

/-- Independent dealer indicator phrases, lines 827-867. -/
def independent_indicators : List String :=
  ["used cars", "used car", "pre-owned", "pre owned", "previously owned",
   "certified pre-owned", "quality used", "clean used", "reliable used",
   "auto sales", "car sales", "vehicle sales", "automobile sales",
   "independent", "family owned", "locally owned", "owner operated",
   "family business", "local business", "since", "est.",
   "car lot", "auto lot", "lot", "cars", "autos", "vehicles",
   "car mart", "auto mart", "car world", "auto world",
   "car connection", "auto connection", "car plaza", "auto plaza",
   "car center", "auto center", "car hub", "auto hub",
   "car gallery", "auto gallery", "car depot", "auto depot",
   "car warehouse", "auto warehouse", "car emporium", "auto emporium",
   "affordable cars", "discount auto", "budget cars", "economy auto",
   "value cars", "bargain auto", "cheap cars", "low price",
   "select auto", "premier auto", "elite auto", "choice auto",
   "best buy auto", "first choice", "top choice", "prime auto",
   "motors", "automotive", "auto", "dealer", "dealership",
   "car company", "auto company", "car group", "auto group",
   "wholesale", "trade", "consignment", "broker"]

/-- Generic car words of the `is_likely_dealer` check, lines 873-875. -/
def likely_dealer_words : List String :=
  ["car", "auto", "vehicle", "motor", "sales", "dealer"]

/-- Car-related words of the last-chance relevance check, line 880. -/
def car_related_words : List String :=
  ["car", "auto", "vehicle", "motor", "sales", "dealer", "lot"]

/-- Strong independent indicator words, line 930. -/
def strong_independent_words : List String :=
  ["independent", "family owned", "locally owned", "used cars", "used car lot"]

/-! ### Franchise classification (src/app.py lines 742-783) -/

/-- The obvious brand-prominence patterns of lines 760-765: brand as first
word (`"honda motors"`), pluralised first word (`"hondas of ..."`), interior
word (`"city honda dealer"`), or last word (`"city honda"`). -/
def brandPattern (brand nl : String) : Bool :=
  startsB (brand ++ " ") nl || startsB (brand ++ "s ") nl ||
  substrB (" " ++ brand ++ " ") nl || endsB (" " ++ brand) nl

/-- Line 757: some clear franchise indicator occurs in the lowercased name. -/
def hasClearIndicator (nl : String) : Bool :=
  franchise_clear_indicators.any fun ind => substrB ind nl

/-- Method 1 of the franchise check, lines 754-771: some brand occurs in the
name together with a clear indicator or a prominent brand pattern. -/
def franchiseMethod1 (nl : String) : Bool :=
  franchise_brands.any fun brand =>
    substrB brand nl && (hasClearIndicator nl || brandPattern brand nl)

/-- Method 2 of the franchise check, lines 774-783: a brand-free
franchise-only pattern occurs in the name. -/
def franchiseMethod2 (nl : String) : Bool :=
  franchise_only_patterns.any fun q => substrB q nl

/-- The `is_franchise` flag computed by lines 742-783 for a lowercased name. -/
def is_franchise (nl : String) : Bool :=
  franchiseMethod1 nl || franchiseMethod2 nl

/-- No brand occurring in the name matches a prominent brand pattern. -/
def noProminentBrand (nl : String) : Bool :=
  franchise_brands.all fun brand => !(substrB brand nl) || !(brandPattern brand nl)

/-! ### Non-dealer and relevance checks (src/app.py lines 789-883) -/

/-- The exclusive-service patterns of lines 811-819. -/
def exclusiveService (nl : String) : Bool :=
  endsB " parts" nl || endsB " towing" nl || endsB " glass" nl ||
  endsB " tires" nl || substrB "parts & service only" nl ||
  substrB "service only" nl || substrB "repairs only" nl

/-- The `should_skip` flag of lines 802-820. -/
def should_skip (nl : String) : Bool :=
  (skip_keywords.any fun k => substrB k nl) || exclusiveService nl

/-- Line 870: some independent dealer indicator occurs in the name. -/
def hasIndep (nl : String) : Bool :=
  independent_indicators.any fun ind => substrB ind nl

/-- The `is_likely_dealer` flag of lines 873-875. -/
def isLikelyDealer (nl : String) : Bool :=
  hasIndep nl || likely_dealer_words.any fun w => substrB w nl

/-- Line 880-881: some generic car-related word occurs in the name. -/
def carRelated (nl : String) : Bool :=
  car_related_words.any fun w => substrB w nl

/-- Line 931: some strong independent indicator occurs in the name. -/
def strongIndep (nl : String) : Bool :=
  strong_independent_words.any fun w => substrB w nl

/-! ### Scoring (src/app.py lines 895-932) -/

/-- Rating bonus, lines 901-908: nothing when the rating is falsy (absent or
0), otherwise exclusive tiers at 4.5 (`mkRat 9 2`), 4.0 and 3.5
(`mkRat 7 2`). -/
def ratingBonus (r : ℚ) : Nat :=
  if r = 0 then 0
  else if mkRat 9 2 ≤ r then 20
  else if 4 ≤ r then 15
  else if mkRat 7 2 ≤ r then 10
  else 0

/-- Review-volume bonus, lines 910-917. -/
def reviewBonus (n : Nat) : Nat :=
  if 100 ≤ n then 15 else if 50 ≤ n then 10 else if 20 ≤ n then 5 else 0

/-- The pre-clamp prospect score accumulated in lines 899-932: base 50, the
rating and review bonuses, 10 each for a truthy website and phone, 15 for an
independent indicator match and 10 more for a strong indicator match. -/
def preScore (rating : ℚ) (reviews : Nat) (website phone : Option String)
    (nl : String) : Nat :=
  50 + ratingBonus rating + reviewBonus reviews
     + (if truthyStr website then 10 else 0)
     + (if truthyStr phone then 10 else 0)
     + (if hasIndep nl then 15 else 0)
     + (if strongIndep nl then 10 else 0)

/-! ### Data model (src/app.py lines 707-712 and 934-948) -/

/-- The detail record fetched for one candidate (lines 707-712).  Every field
the code reads through `details.get` is optional. -/
structure RawPlace where
  place_id : String
  name : Option String
  formatted_address : Option String
  formatted_phone_number : Option String
  website : Option String
  rating : Option ℚ
  user_ratings_total : Option Nat
  url : Option String
  location : Option (ℚ × ℚ)
  business_status : Option String

/-- The dealer record built at lines 935-948. -/
structure ScoredProspect where
  place_id : String
  name : String
  address : String
  phone : Option String
  website : Option String
  rating : ℚ
  user_ratings_total : Nat
  maps_url : Option String
  loc : Option (ℚ × ℚ)
  distance : ℚ
  prospect_score : Nat
  priority : String

/-- Python `round(x, 1)` (round half up; the half-even tie difference never
arises in the properties below). -/
def round1 (q : ℚ) : ℚ := mkRat ⌊q * 10 + mkRat 1 2⌋ 10

/-! ### The per-candidate pipeline (src/app.py lines 704-950) -/

/-- The stripped name of line 719 (`details.get('name', '').strip()`). -/
def dealerName (p : RawPlace) : String := stripStr (p.name.getD "")

/-- The address of line 720 (`details.get('formatted_address', '')`). -/
def dealerAddress (p : RawPlace) : String := p.formatted_address.getD ""

/-- The lowercased name `name_lower` of line 740. -/
def nameKey (p : RawPlace) : String := lowerStr (dealerName p)

/-- The location gate of lines 722-737: with location data, keep only within
20 miles of the search center; without it, keep only when the raw ZIP string
occurs in the formatted address. -/
def locGuard (dist : ℚ × ℚ → ℚ × ℚ → ℚ) (center : ℚ × ℚ) (zip_code : String)
    (p : RawPlace) : Bool :=
  match p.location with
  | some loc => decide (dist center loc ≤ 20)
  | none => substrB zip_code (dealerAddress p)

/-- Conjunction of the `continue` guards of lines 722-883 for a candidate
that is not permanently closed: the location gate, not a franchise, not an
obvious non-dealer, and relevance (an independent indicator, a likely-dealer
word, or a car-related word in the name). -/
def keepGuard (dist : ℚ × ℚ → ℚ × ℚ → ℚ) (center : ℚ × ℚ) (zip_code : String)
    (p : RawPlace) : Bool :=
  locGuard dist center zip_code p &&
  !(is_franchise (nameKey p)) &&
  !(should_skip (nameKey p)) &&
  (isLikelyDealer (nameKey p) || carRelated (nameKey p))

/-- The distance of lines 885-893: recomputed from geometry when present,
silently 0 for the ZIP-matched no-location fallback. -/
def rawDistance (dist : ℚ × ℚ → ℚ × ℚ → ℚ) (center : ℚ × ℚ)
    (p : RawPlace) : ℚ :=
  match p.location with
  | some loc => dist center loc
  | none => 0

/-- The pre-clamp `prospect_score` of lines 899-932 for a candidate. -/
def placeScore (p : RawPlace) : Nat :=
  preScore (p.rating.getD 0) (p.user_ratings_total.getD 0)
    p.website p.formatted_phone_number (nameKey p)

/-- The dealer record of lines 935-948.  Note line 946 stores the clamped
score while line 947 derives the priority from the unclamped sum. -/
def mkProspect (dist : ℚ × ℚ → ℚ × ℚ → ℚ) (center : ℚ × ℚ)
    (p : RawPlace) : ScoredProspect where
  place_id := p.place_id
  name := dealerName p
  address := dealerAddress p
  phone := p.formatted_phone_number
  website := p.website
  rating := p.rating.getD 0
  user_ratings_total := p.user_ratings_total.getD 0
  maps_url := p.url
  loc := p.location
  distance := round1 (rawDistance dist center p)
  prospect_score := min (placeScore p) 100
  priority := if 70 ≤ placeScore p then "High" else "Standard"

/-- The filter stages of lines 714-883 applied after the closure check. -/
def processOpen (dist : ℚ × ℚ → ℚ × ℚ → ℚ) (center : ℚ × ℚ)
    (zip_code : String) (p : RawPlace) : Option ScoredProspect :=
  if keepGuard dist center zip_code p then some (mkProspect dist center p)
  else none

/-- One loop iteration of lines 704-950: the closure check of lines 714-717
followed by the remaining filter stages and scoring. -/
def processPlace (dist : ℚ × ℚ → ℚ × ℚ → ℚ) (center : ℚ × ℚ)
    (zip_code : String) (p : RawPlace) : Option ScoredProspect :=
  if p.business_status = some "CLOSED_PERMANENTLY" then none
  else processOpen dist center zip_code p

/-! ### Ranking (src/app.py line 957) -/

/-- The total preorder of `sort(key=lambda x: (-prospect_score, distance))`:
higher score first, ties by smaller distance. -/
def prospectR (a b : ScoredProspect) : Prop :=
  b.prospect_score < a.prospect_score ∨
    (a.prospect_score = b.prospect_score ∧ a.distance ≤ b.distance)

instance : DecidableRel prospectR := fun a b => by
  unfold prospectR; infer_instance

instance : IsTotal ScoredProspect prospectR where
  total a b := by
    rcases Nat.lt_trichotomy a.prospect_score b.prospect_score with h | h | h
    · exact Or.inr (Or.inl h)
    · rcases le_total a.distance b.distance with hd | hd
      · exact Or.inl (Or.inr ⟨h, hd⟩)
      · exact Or.inr (Or.inr ⟨h.symm, hd⟩)
    · exact Or.inl (Or.inl h)

instance : IsTrans ScoredProspect prospectR where
  trans a b c hab hbc := by
    rcases hab with h1 | ⟨h1, d1⟩
    · rcases hbc with h2 | ⟨h2, d2⟩
      · exact Or.inl (h2.trans h1)
      · exact Or.inl (h2 ▸ h1)
    · rcases hbc with h2 | ⟨h2, d2⟩
      · exact Or.inl (h1 ▸ h2)
      · exact Or.inr ⟨h1.trans h2, d1.trans d2⟩

/-- The whole classifier: per-candidate filtering and scoring over the
deduplicated candidate list, then the sort of line 957. -/
def classifyAndScore (dist : ℚ × ℚ → ℚ × ℚ → ℚ) (center : ℚ × ℚ)
    (zip_code : String) (places : List RawPlace) : List ScoredProspect :=
  List.insertionSort prospectR (places.filterMap (processPlace dist center zip_code))

/-! ### Sample inputs used to instantiate the theorems -/

/-- A concrete stand-in for the geodesic-mile function: constant 1 mile. -/
def dist1 : ℚ × ℚ → ℚ × ℚ → ℚ := fun _ _ => 1

/-- A concrete search reference point. -/
def center0 : ℚ × ℚ := (0, 0)

/-- A concrete raw ZIP-code string. -/
def zip0 : String := "22180"

/-- A complete, clearly independent candidate (rating 4.6, 120 reviews). -/
def goodPlace : RawPlace where
  place_id := "pid-good"
  name := some "Springfield Used Cars"
  formatted_address := some "123 Main St, Vienna, VA 22180, USA"
  formatted_phone_number := some "703-555-1212"
  website := some "http://example.com"
  rating := some (mkRat 23 5)
  user_ratings_total := some 120
  url := none
  location := some (1, 1)
  business_status := none

/-- The record the pipeline produces for `goodPlace`. -/
def goodOut : ScoredProspect where
  place_id := "pid-good"
  name := "Springfield Used Cars"
  address := "123 Main St, Vienna, VA 22180, USA"
  phone := some "703-555-1212"
  website := some "http://example.com"
  rating := mkRat 23 5
  user_ratings_total := 120
  maps_url := none
  loc := some (1, 1)
  distance := round1 1
  prospect_score := 100
  priority := "High"

/-- The same candidate marked permanently closed. -/
def closedPlace : RawPlace where
  place_id := "pid-closed"
  name := some "Springfield Used Cars"
  formatted_address := some "123 Main St, Vienna, VA 22180, USA"
  formatted_phone_number := some "703-555-1212"
  website := some "http://example.com"
  rating := some (mkRat 23 5)
  user_ratings_total := some 120
  url := none
  location := some (1, 1)
  business_status := some "CLOSED_PERMANENTLY"

/-- A candidate with no location data and no ZIP match in its address. -/
def noLocPlace : RawPlace where
  place_id := "pid-noloc"
  name := some "Vienna Auto Sales"
  formatted_address := some "456 Maple Ave, Arlington, VA"
  formatted_phone_number := none
  website := none
  rating := none
  user_ratings_total := none
  url := none
  location := none
  business_status := none

/-- A candidate with no location data but a ZIP match, and with every
optional scoring field absent. -/
def plainPlace : RawPlace where
  place_id := "pid-plain"
  name := some "Vienna Auto Sales"
  formatted_address := some "456 Maple Ave, Vienna, VA 22180"
  formatted_phone_number := none
  website := none
  rating := none
  user_ratings_total := none
  url := none
  location := none
  business_status := none

/-- The record the pipeline produces for `plainPlace`. -/
def plainOut : ScoredProspect where
  place_id := "pid-plain"
  name := "Vienna Auto Sales"
  address := "456 Maple Ave, Vienna, VA 22180"
  phone := none
  website := none
  rating := 0
  user_ratings_total := 0
  maps_url := none
  loc := none
  distance := round1 0
  prospect_score := 65
  priority := "Standard"

/-! ### Inversion lemmas for the pipeline -/

theorem processPlace_some_iff {dist : ℚ × ℚ → ℚ × ℚ → ℚ} {center : ℚ × ℚ}
    {zip_code : String} {p : RawPlace} {out : ScoredProspect} :
    processPlace dist center zip_code p = some out ↔
      ¬p.business_status = some "CLOSED_PERMANENTLY" ∧
      keepGuard dist center zip_code p = true ∧
      out = mkProspect dist center p := by
  by_cases h1 : p.business_status = some "CLOSED_PERMANENTLY" <;>
    by_cases h2 : keepGuard dist center zip_code p = true <;>
      simp [processPlace, processOpen, h1, h2, eq_comm]

theorem mem_classifyAndScore_iff {dist : ℚ × ℚ → ℚ × ℚ → ℚ} {center : ℚ × ℚ}
    {zip_code : String} {places : List RawPlace} {out : ScoredProspect} :
    out ∈ classifyAndScore dist center zip_code places ↔
      ∃ p ∈ places, processPlace dist center zip_code p = some out := by
  unfold classifyAndScore
  rw [List.mem_insertionSort, List.mem_filterMap]

theorem keepGuard_parts {dist : ℚ × ℚ → ℚ × ℚ → ℚ} {center : ℚ × ℚ}
    {zip_code : String} {p : RawPlace}
    (h : keepGuard dist center zip_code p = true) :
    locGuard dist center zip_code p = true ∧
    is_franchise (nameKey p) = false ∧
    should_skip (nameKey p) = false ∧
    (isLikelyDealer (nameKey p) || carRelated (nameKey p)) = true := by
  unfold keepGuard at h
  simp only [Bool.and_eq_true, Bool.not_eq_true'] at h
  exact ⟨h.1.1.1, h.1.1.2, h.1.2, h.2⟩

/-! ### Claim C1 -/

/-- C1 counterexample: the lowercased name `"xtoyota oem parts"` contains the
brand token `"toyota"`, contains no clear franchise-indicator phrase, and no
brand occurrence in it is structurally prominent, yet the code classifies it
as a franchise (the brand-free pattern `"oem parts"` of Method 2 fires).
This refutes the claim that a brand token with no franchise-indicator and no
structural prominence is never classified as franchise. -/
theorem C1_counterexample :
    substrB "toyota" "xtoyota oem parts" = true ∧
    "toyota" ∈ franchise_brands ∧
    hasClearIndicator "xtoyota oem parts" = false ∧
    noProminentBrand "xtoyota oem parts" = true ∧
    is_franchise "xtoyota oem parts" = true := by
  refine ⟨by decide, by decide, by decide, by decide, by decide⟩

/-- C1 (amended): (1) a lowercased name containing a major-brand token
together with a clear franchise-indicator phrase or a structurally prominent
brand occurrence is classified as franchise; (2) a name classified as
franchise is excluded from the output; (3) a name containing a brand token
but no clear franchise-indicator, no structurally prominent brand occurrence,
and also none of the brand-free franchise-only patterns of Method 2
(`"authorized dealer"`, ..., `"warranty service"`) is NOT classified as
franchise.  The original claim lacked the Method 2 proviso in part (3). -/
theorem C1_franchise_filter (nl : String) :
    ((∃ b ∈ franchise_brands, substrB b nl = true ∧
        (hasClearIndicator nl = true ∨ brandPattern b nl = true)) →
      is_franchise nl = true) ∧
    (∀ (dist : ℚ × ℚ → ℚ × ℚ → ℚ) (center : ℚ × ℚ) (zip_code : String)
        (p : RawPlace), is_franchise (nameKey p) = true →
      processPlace dist center zip_code p = none) ∧
    ((∃ b ∈ franchise_brands, substrB b nl = true) →
      hasClearIndicator nl = false →
      (∀ b ∈ franchise_brands, substrB b nl = true → brandPattern b nl = false) →
      (∀ q ∈ franchise_only_patterns, substrB q nl = false) →
      is_franchise nl = false) := by
  refine ⟨?partA, ?partExcl, ?partB⟩
  case partA =>
    rintro ⟨b, hbmem, hsub, hor⟩
    unfold is_franchise franchiseMethod1
    rw [Bool.or_eq_true]
    left
    rw [List.any_eq_true]
    refine ⟨b, hbmem, ?_⟩
    rcases hor with h | h <;> simp [hsub, h]
  case partExcl =>
    intro dist center zip_code p hf
    unfold processPlace
    split
    · rfl
    · unfold processOpen
      suffices hk : keepGuard dist center zip_code p = false by simp [hk]
      unfold keepGuard
      simp [hf]
  case partB =>
    rintro ⟨b, hbmem, hsub⟩ hind hpat honly
    unfold is_franchise
    apply Bool.or_eq_false_iff.mpr
    constructor
    · unfold franchiseMethod1
      rw [List.any_eq_false]
      intro x hx
      by_cases hs : substrB x nl = true
      · simp [hs, hind, hpat x hx hs]
      · simp [Bool.and_eq_true, hs]
    · unfold franchiseMethod2
      rw [List.any_eq_false]
      intro q hq
      simp [honly q hq]

/-- C1 witness: `"honda dealership of springfield"` (brand plus the clear
indicator `"dealership"`) is classified as franchise by part (1);
`"city motors we buy any toyotas"` (brand token, no clear indicator, no
prominent occurrence, no Method 2 pattern) is not, by part (3). -/
theorem C1_witness :
    is_franchise "honda dealership of springfield" = true ∧
    is_franchise "city motors we buy any toyotas" = false := by
  constructor
  · exact (C1_franchise_filter "honda dealership of springfield").1
      ⟨"honda", by decide, by decide, Or.inl (by decide)⟩
  · exact (C1_franchise_filter "city motors we buy any toyotas").2.2
      ⟨"toyota", by decide, by decide⟩ (by decide) (by decide) (by decide)

/-! ### Claim C2 -/

/-- C2: every retained candidate's stored `prospect_score` is the clamp to
100 of base 50 plus the exclusive-tier rating bonus (20 at 4.5, 15 at 4.0,
10 at 3.5, with a falsy rating — absent or exactly 0 — contributing nothing
rather than a penalty), plus the exclusive-tier review bonus (15 at 100,
10 at 50, 5 at 20), plus 10 for a website, 10 for a phone number, 15 for an
independent-indicator match and 10 for a strong-indicator match.
`mkRat 9 2` and `mkRat 7 2` are the thresholds 4.5 and 3.5. -/
theorem C2_scoring_formula (dist : ℚ × ℚ → ℚ × ℚ → ℚ) (center : ℚ × ℚ)
    (zip_code : String) (p : RawPlace) (out : ScoredProspect)
    (h : processPlace dist center zip_code p = some out) :
    out.prospect_score =
      min (50
        + (if p.rating.getD 0 = 0 then 0
           else if mkRat 9 2 ≤ p.rating.getD 0 then 20
           else if (4 : ℚ) ≤ p.rating.getD 0 then 15
           else if mkRat 7 2 ≤ p.rating.getD 0 then 10
           else 0)
        + (if 100 ≤ p.user_ratings_total.getD 0 then 15
           else if 50 ≤ p.user_ratings_total.getD 0 then 10
           else if 20 ≤ p.user_ratings_total.getD 0 then 5
           else 0)
        + (if truthyStr p.website then 10 else 0)
        + (if truthyStr p.formatted_phone_number then 10 else 0)
        + (if hasIndep (nameKey p) then 15 else 0)
        + (if strongIndep (nameKey p) then 10 else 0)) 100 := by
  obtain ⟨-, -, rfl⟩ := processPlace_some_iff.mp h
  rfl

/-- C2 witness: the scoring formula applied to `goodPlace` (rating 4.6,
120 reviews, website, phone, independent and strong indicators) evaluates
to 100. -/
theorem C2_witness : goodOut.prospect_score = 100 := by
  have h := C2_scoring_formula dist1 center0 zip0 goodPlace goodOut (by rfl)
  rw [h]
  decide

/-! ### Claim C3 -/

/-- C3 counterexample: `goodPlace` is retained and matches the scenario's
hypotheses (rating 4.6, 120 reviews, website, phone, name containing
`"used cars"`), but `"used cars"` is itself in the code's strong-indicator
list, so the pre-clamp sum is 130, not the claimed 120. -/
theorem C3_counterexample :
    processPlace dist1 center0 zip0 goodPlace = some goodOut ∧
    substrB "used cars" (nameKey goodPlace) = true ∧
    strongIndep (nameKey goodPlace) = true ∧
    placeScore goodPlace = 130 ∧
    ¬placeScore goodPlace = 120 :=
  ⟨by rfl, by decide, by decide, by decide, by decide⟩

/-- C3 (amended): for every retained candidate with rating 4.6
(`mkRat 23 5`), 120 reviews, a truthy website and phone, and a name
containing `"used cars"`, the pre-clamp sum is
50+20+15+10+10+15+10 = 130 — the phrase `"used cars"` is an independent
indicator AND a member of the code's strong-indicator list, so the +10
strong bonus also applies (the original claim said the sum was 120 with no
strong match) — and the stored `prospect_score` clamps to 100 with priority
High. -/
theorem C3_scoring_scenario (dist : ℚ × ℚ → ℚ × ℚ → ℚ) (center : ℚ × ℚ)
    (zip_code : String) (p : RawPlace) (out : ScoredProspect)
    (h : processPlace dist center zip_code p = some out)
    (hr : p.rating = some (mkRat 23 5))
    (hv : p.user_ratings_total = some 120)
    (hw : truthyStr p.website = true)
    (hp : truthyStr p.formatted_phone_number = true)
    (hu : substrB "used cars" (nameKey p) = true) :
    placeScore p = 130 ∧ out.prospect_score = 100 ∧ out.priority = "High" := by
  have hasI : hasIndep (nameKey p) = true :=
    List.any_eq_true.mpr ⟨"used cars", by decide, hu⟩
  have hasS : strongIndep (nameKey p) = true :=
    List.any_eq_true.mpr ⟨"used cars", by decide, hu⟩
  have hrb : ratingBonus (mkRat 23 5) = 20 := by decide
  have hscore : placeScore p = 130 := by
    unfold placeScore preScore
    rw [hr, hv]
    simp [hrb, hw, hp, hasI, hasS]
    decide
  obtain ⟨-, -, rfl⟩ := processPlace_some_iff.mp h
  refine ⟨hscore, ?_, ?_⟩
  · show min (placeScore p) 100 = 100
    rw [hscore]
    decide
  · show (if 70 ≤ placeScore p then "High" else "Standard") = "High"
    rw [hscore]
    decide

/-- C3 witness: the amended scenario instantiated at `goodPlace`. -/
theorem C3_witness :
    placeScore goodPlace = 130 ∧ goodOut.prospect_score = 100 ∧
    goodOut.priority = "High" :=
  C3_scoring_scenario dist1 center0 zip0 goodPlace goodOut (by rfl) rfl rfl
    (by decide) (by decide) (by decide)

/-! ### Claim C4 -/

/-- C4: every record in the output has priority `"High"` exactly when its
stored (clamped) `prospect_score` is at least 70; the iff survives the
clamping because the pre-clamp sum is at least 70 iff its min with 100 is. -/
theorem C4_priority_consistency (dist : ℚ × ℚ → ℚ × ℚ → ℚ) (center : ℚ × ℚ)
    (zip_code : String) (places : List RawPlace) (out : ScoredProspect)
    (h : out ∈ classifyAndScore dist center zip_code places) :
    out.priority = "High" ↔ 70 ≤ out.prospect_score := by
  obtain ⟨p, -, hp⟩ := mem_classifyAndScore_iff.mp h
  obtain ⟨-, -, rfl⟩ := processPlace_some_iff.mp hp
  show (if 70 ≤ placeScore p then "High" else "Standard") = "High" ↔
    70 ≤ min (placeScore p) 100
  by_cases h70 : 70 ≤ placeScore p
  · rw [if_pos h70]
    exact ⟨fun _ => le_min h70 (by norm_num), fun _ => rfl⟩
  · rw [if_neg h70]
    constructor
    · intro hx
      exact absurd hx (by decide)
    · intro hc
      exact absurd (hc.trans (min_le_left _ _)) h70

/-- C4 witness: the iff instantiated at the concrete output for
`goodPlace`. -/
theorem C4_witness : goodOut.priority = "High" ↔ 70 ≤ goodOut.prospect_score :=
  C4_priority_consistency dist1 center0 zip0 [goodPlace] goodOut (by
    rw [show classifyAndScore dist1 center0 zip0 [goodPlace] = [goodOut] from rfl]
    exact List.mem_singleton.mpr rfl)

/-! ### Claim C5 -/

/-- C5: the output list is sorted: every adjacent pair (a, b) has
a.prospect_score > b.prospect_score, or equal scores and
a.distance ≤ b.distance. -/
theorem C5_ranking_order (dist : ℚ × ℚ → ℚ × ℚ → ℚ) (center : ℚ × ℚ)
    (zip_code : String) (places : List RawPlace) :
    List.Chain' (fun a b : ScoredProspect =>
      b.prospect_score < a.prospect_score ∨
        (a.prospect_score = b.prospect_score ∧ a.distance ≤ b.distance))
      (classifyAndScore dist center zip_code places) :=
  List.Pairwise.chain'
    (List.sorted_insertionSort prospectR
      (places.filterMap (processPlace dist center zip_code)))

/-! ### Claim C6 -/

/-- C6: (1) a candidate whose `business_status` is `CLOSED_PERMANENTLY` is
dropped by the pipeline regardless of its other attributes; (2) every output
record comes from a candidate that is not permanently closed, so a closed
candidate never appears in the output; (3) a candidate with no
`business_status` field is not excluded on status grounds: the pipeline
treats it exactly as the remaining filter stages do. -/
theorem C6_closure_handling (dist : ℚ × ℚ → ℚ × ℚ → ℚ) (center : ℚ × ℚ)
    (zip_code : String) :
    (∀ p : RawPlace, p.business_status = some "CLOSED_PERMANENTLY" →
      processPlace dist center zip_code p = none) ∧
    (∀ (places : List RawPlace) (out : ScoredProspect),
      out ∈ classifyAndScore dist center zip_code places →
      ∃ p ∈ places, ¬p.business_status = some "CLOSED_PERMANENTLY" ∧
        processPlace dist center zip_code p = some out) ∧
    (∀ p : RawPlace, p.business_status = none →
      processPlace dist center zip_code p = processOpen dist center zip_code p) := by
  refine ⟨?closed, ?output, ?absent⟩
  case closed =>
    intro p hs
    unfold processPlace
    rw [if_pos hs]
  case output =>
    intro places out h
    obtain ⟨p, hmem, hp⟩ := mem_classifyAndScore_iff.mp h
    refine ⟨p, hmem, ?_, hp⟩
    exact (processPlace_some_iff.mp hp).1
  case absent =>
    intro p hs
    unfold processPlace
    rw [if_neg (by rw [hs]; exact fun hc => Option.noConfusion hc)]

/-- C6 witness: the permanently closed `closedPlace` is dropped, and the
status-free `goodPlace` proceeds to the remaining stages. -/
theorem C6_witness :
    processPlace dist1 center0 zip0 closedPlace = none ∧
    processPlace dist1 center0 zip0 goodPlace =
      processOpen dist1 center0 zip0 goodPlace :=
  ⟨(C6_closure_handling dist1 center0 zip0).1 closedPlace rfl,
   (C6_closure_handling dist1 center0 zip0).2.2 goodPlace rfl⟩

/-! ### Claim C7 -/

/-- C7: a candidate with no location data is kept only via the ZIP fallback:
if the raw ZIP string does not occur in its formatted address it is dropped
(never retained with a silently defaulted distance), and whenever it is
retained the ZIP string does occur in the address. -/
theorem C7_missing_location (dist : ℚ × ℚ → ℚ × ℚ → ℚ) (center : ℚ × ℚ)
    (zip_code : String) (p : RawPlace) (hloc : p.location = none) :
    (substrB zip_code (dealerAddress p) = false →
      processPlace dist center zip_code p = none) ∧
    (∀ out : ScoredProspect, processPlace dist center zip_code p = some out →
      substrB zip_code (dealerAddress p) = true) := by
  have hguard : locGuard dist center zip_code p = substrB zip_code (dealerAddress p) := by
    unfold locGuard
    rw [hloc]
  constructor
  · intro hz
    unfold processPlace
    split
    · rfl
    · unfold processOpen
      suffices hk : keepGuard dist center zip_code p = false by rw [hk]; rfl
      unfold keepGuard
      rw [hguard, hz]
      rfl
  · intro out hsome
    obtain ⟨-, hk, -⟩ := processPlace_some_iff.mp hsome
    have := (keepGuard_parts hk).1
    rw [hguard] at this
    exact this

/-- C7 witness: `noLocPlace` (no location, no ZIP match) is dropped, and the
retained `plainPlace` (no location, ZIP fallback) has the ZIP in its
address. -/
theorem C7_witness :
    processPlace dist1 center0 zip0 noLocPlace = none ∧
    substrB zip0 (dealerAddress plainPlace) = true :=
  ⟨(C7_missing_location dist1 center0 zip0 noLocPlace rfl).1 (by decide),
   (C7_missing_location dist1 center0 zip0 plainPlace rfl).2 plainOut (by rfl)⟩

/-! ### Claim C8 -/

/-- C8 counterexample: `plainPlace` is retained with `rating` and
`user_ratings_total` absent, yet its output record carries rating 0 and
review count 0 — absent optional fields are replaced by defaults, refuting
the unchanged-passthrough claim. -/
theorem C8_counterexample :
    processPlace dist1 center0 zip0 plainPlace = some plainOut ∧
    plainPlace.rating = none ∧ plainOut.rating = 0 ∧
    plainPlace.user_ratings_total = none ∧ plainOut.user_ratings_total = 0 :=
  ⟨by rfl, rfl, rfl, rfl, rfl⟩

/-- C8 (amended): for every retained candidate, `place_id`, `phone` and
`website` pass through exactly (absent phone/website stay absent); the name
is the whitespace-stripped input name (absent name becomes the empty
string); and address, rating and review count pass through exactly when
present, but an absent address becomes `""` and absent rating/review count
become 0 in the output record. -/
theorem C8_field_passthrough (dist : ℚ × ℚ → ℚ × ℚ → ℚ) (center : ℚ × ℚ)
    (zip_code : String) (p : RawPlace) (out : ScoredProspect)
    (h : processPlace dist center zip_code p = some out) :
    out.place_id = p.place_id ∧
    out.phone = p.formatted_phone_number ∧
    out.website = p.website ∧
    out.name = stripStr (p.name.getD "") ∧
    out.address = p.formatted_address.getD "" ∧
    out.rating = p.rating.getD 0 ∧
    out.user_ratings_total = p.user_ratings_total.getD 0 ∧
    (∀ a, p.formatted_address = some a → out.address = a) ∧
    (∀ r, p.rating = some r → out.rating = r) ∧
    (∀ n, p.user_ratings_total = some n → out.user_ratings_total = n) := by
  obtain ⟨-, -, rfl⟩ := processPlace_some_iff.mp h
  refine ⟨rfl, rfl, rfl, rfl, rfl, rfl, rfl, ?_, ?_, ?_⟩
  · intro a ha
    show p.formatted_address.getD "" = a
    rw [ha]
    rfl
  · intro r hr
    show p.rating.getD 0 = r
    rw [hr]
    rfl
  · intro n hn
    show p.user_ratings_total.getD 0 = n
    rw [hn]
    rfl

/-- C8 witness: the amended passthrough instantiated at `goodPlace`, whose
optional fields are all present. -/
theorem C8_witness :
    goodOut.place_id = goodPlace.place_id ∧
    goodOut.phone = goodPlace.formatted_phone_number ∧
    goodOut.website = goodPlace.website ∧
    goodOut.rating = goodPlace.rating.getD 0 ∧
    goodOut.user_ratings_total = goodPlace.user_ratings_total.getD 0 :=
  have h := C8_field_passthrough dist1 center0 zip0 goodPlace goodOut (by rfl)
  ⟨h.1, h.2.1, h.2.2.1, h.2.2.2.2.2.1, h.2.2.2.2.2.2.1⟩

/-! ### Claim C9 -/

/-- C9: a candidate with location data is retained only when the distance
function's value from the search center is at most 20 miles, and its output
distance — the rounded geometric distance — is also at most 20. -/
theorem C9_radius_cutoff (dist : ℚ × ℚ → ℚ × ℚ → ℚ) (center : ℚ × ℚ)
    (zip_code : String) (p : RawPlace) (loc : ℚ × ℚ) (out : ScoredProspect)
    (hloc : p.location = some loc)
    (h : processPlace dist center zip_code p = some out) :
    dist center loc ≤ 20 ∧ out.distance = round1 (dist center loc) ∧
    out.distance ≤ 20 := by
  obtain ⟨-, hk, rfl⟩ := processPlace_some_iff.mp h
  have hg := (keepGuard_parts hk).1
  simp only [locGuard, hloc] at hg
  have hd : dist center loc ≤ 20 := of_decide_eq_true hg
  have hout : (mkProspect dist center p).distance = round1 (dist center loc) := by
    show round1 (rawDistance dist center p) = _
    unfold rawDistance
    rw [hloc]
  refine ⟨hd, hout, ?_⟩
  rw [hout]
  unfold round1
  rw [Rat.mkRat_eq_div]
  push_cast
  rw [div_le_iff₀ (by norm_num : (0:ℚ) < 10)]
  have hfl : ⌊dist center loc * 10 + mkRat 1 2⌋ < 201 := by
    apply Int.floor_lt.mpr
    have h2 : (mkRat 1 2 : ℚ) < 1 := by norm_num [Rat.mkRat_eq_div]
    push_cast
    linarith
  have hcast : (⌊dist center loc * 10 + mkRat 1 2⌋ : ℚ) ≤ 200 := by
    exact_mod_cast Int.lt_add_one_iff.mp hfl
  linarith

/-- C9 witness: the cutoff instantiated at `goodPlace` with the concrete
constant-1-mile distance function. -/
theorem C9_witness :
    dist1 center0 (1, 1) ≤ 20 ∧
    goodOut.distance = round1 (dist1 center0 (1, 1)) ∧
    goodOut.distance ≤ 20 :=
  C9_radius_cutoff dist1 center0 zip0 goodPlace (1, 1) goodOut rfl (by rfl)

/-! ### Claim C10 -/

/-- C10: a lowercased name containing any brand-free franchise-only pattern
(`"authorized dealer"`, `"certified dealer"`, `"official dealer"`,
`"factory authorized"`, `"manufacturer certified"`, `"oem parts"`,
`"genuine parts"`, `"warranty service"`) is classified as franchise even
with no brand token, and consequently no output record's lowercased name
contains any of these patterns. -/
theorem C10_brand_free_franchise (nl : String) :
    ((∃ q ∈ franchise_only_patterns, substrB q nl = true) →
      is_franchise nl = true) ∧
    (∀ (dist : ℚ × ℚ → ℚ × ℚ → ℚ) (center : ℚ × ℚ) (zip_code : String)
        (places : List RawPlace) (out : ScoredProspect),
      out ∈ classifyAndScore dist center zip_code places →
      ∀ q ∈ franchise_only_patterns, substrB q (lowerStr out.name) = false) := by
  constructor
  · rintro ⟨q, hq, hs⟩
    unfold is_franchise
    rw [Bool.or_eq_true]
    right
    exact List.any_eq_true.mpr ⟨q, hq, hs⟩
  · intro dist center zip_code places out h q hq
    obtain ⟨p, -, hp⟩ := mem_classifyAndScore_iff.mp h
    obtain ⟨-, hk, rfl⟩ := processPlace_some_iff.mp hp
    have hf := (keepGuard_parts hk).2.1
    have hnk : lowerStr (mkProspect dist center p).name = nameKey p := rfl
    rw [hnk]
    have hm2 : franchiseMethod2 (nameKey p) = false := by
      unfold is_franchise at hf
      exact (Bool.or_eq_false_iff.mp hf).2
    exact Bool.eq_false_iff.mpr (List.any_eq_false.mp hm2 q hq)

/-- C10 witness: `"warranty service auto center"` has no brand token yet is
classified as franchise, and the retained output for `goodPlace` has no
franchise-only pattern in its lowercased name. -/
theorem C10_witness :
    is_franchise "warranty service auto center" = true ∧
    substrB "oem parts" (lowerStr goodOut.name) = false := by
  constructor
  · exact (C10_brand_free_franchise "warranty service auto center").1
      ⟨"warranty service", by decide, by decide⟩
  · exact (C10_brand_free_franchise "").2 dist1 center0 zip0 [goodPlace] goodOut
      (by
        rw [show classifyAndScore dist1 center0 zip0 [goodPlace] = [goodOut] from rfl]
        exact List.mem_singleton.mpr rfl)
      "oem parts" (by decide)

end IndependentDealerProspector
